import Mathlib

/-!
# examples/tanks/main.go : identifiers, key bindings and resource registration

A shallow embedding of the start-up routine of the tanks example.

* Go integer enumerations (`const ( X T = iota; ... )`) become `Nat` constants.
* A Go map literal becomes the list of its entries in source order; a `range`
  over the map visits some permutation of that list, each entry once.
* `main` issues its loader calls unconditionally, so its effect on the loader is
  the list of calls it makes (`startupCalls`).
-/

namespace Tanks

/-! ## Identifier namespaces (main.go, lines 19-96) -/

/-- Modelled from the spec: `input.Action`, "an opaque, dense, zero-based identifier"; its
declaration in package `input` is not among the sources. -/
abbrev Action := Nat
/-- Modelled from the spec: `resource.ImageID`, a "dense enum" identifier; its declaration in
package `resource` is not among the sources. -/
abbrev ImageID := Nat
/-- Modelled from the spec: `resource.AudioID`, a "dense enum" identifier; its declaration in
package `resource` is not among the sources. -/
abbrev AudioID := Nat
/-- Modelled from the spec: `resource.FontID`, a "dense enum" identifier; its declaration in
package `resource` is not among the sources. -/
abbrev FontID := Nat
/-- Modelled from the spec: `resource.RawID`, a "dense enum" identifier; its declaration in
package `resource` is not among the sources. -/
abbrev RawID := Nat

def ActionSectorLeft : Action := 0
def ActionSectorRight : Action := 1
def ActionSectorUp : Action := 2
def ActionSectorDown : Action := 3
def ActionCancel : Action := 4
def ActionOpenMenu : Action := 5
def ActionConfirm : Action := 6
def ActionNextItem : Action := 7
def ActionPrevItem : Action := 8
def ActionNextCategory : Action := 9
def ActionPrevCategory : Action := 10
def ActionFortify : Action := 11
def ActionExit : Action := 12

def ImageHullViper : ImageID := 0
def ImageHullScout : ImageID := 1
def ImageHullHunter : ImageID := 2
def ImageHullFighter : ImageID := 3
def ImageHullScorpion : ImageID := 4
def ImageHullMammoth : ImageID := 5
def ImageTurretBuilder : ImageID := 6
def ImageTurretGatlingGun : ImageID := 7
def ImageTurretLightCannon : ImageID := 8
def ImageTurretDualCannon : ImageID := 9
def ImageTurretHeavyCannon : ImageID := 10
def ImageTurretRailgun : ImageID := 11
def ImageTurretLancer : ImageID := 12
def ImageTurretGauss : ImageID := 13
def ImageTurretIon : ImageID := 14
def ImageBattlePost : ImageID := 15
def ImageAmmoGatlingGun : ImageID := 16
def ImageAmmoMediumCannon : ImageID := 17
def ImageAmmoDualCannon : ImageID := 18
def ImageAmmoLancer : ImageID := 19
def ImageAmmoGauss : ImageID := 20
def ImageAmmoIon : ImageID := 21
def ImageExplosion : ImageID := 22
def ImageBackgroundTiles : ImageID := 23
def ImageSectorSelector : ImageID := 24
def ImageUnitSelector : ImageID := 25
def ImageGrid : ImageID := 26
def ImageIronResourceIcon : ImageID := 27
def ImageGoldResourceIcon : ImageID := 28
def ImageOilResourceIcon : ImageID := 29
def ImageCombinedResourceIcon : ImageID := 30
def ImageResourceRow : ImageID := 31
def ImagePopupBuildTank : ImageID := 32
def ImageMenuBackground : ImageID := 33
def ImageMenuButton : ImageID := 34
def ImageMenuSelectButton : ImageID := 35
def ImageMenuCheckboxButton : ImageID := 36
def ImageMenuSlideLeft : ImageID := 37

def AudioGatlingGun : AudioID := 0
def AudioLightCannon : AudioID := 1
def AudioDualCannon : AudioID := 2
def AudioHeavyCannon : AudioID := 3
def AudioRailgun : AudioID := 4
def AudioLancer : AudioID := 5
def AudioGauss : AudioID := 6
def AudioIon : AudioID := 7
def AudioMusic : AudioID := 8

def FontSmall : FontID := 0
def FontDescription : FontID := 1
def FontBig : FontID := 2

def RawTilesJSON : RawID := 0

/-- The `Action` constants of the first `const` block, in declaration order. -/
def declaredActions : List Action :=
  [ActionSectorLeft, ActionSectorRight, ActionSectorUp, ActionSectorDown, ActionCancel,
   ActionOpenMenu, ActionConfirm, ActionNextItem, ActionPrevItem, ActionNextCategory,
   ActionPrevCategory, ActionFortify, ActionExit]

/-- The `ImageID` constants of the second `const` block, in declaration order. -/
def declaredImageIDs : List ImageID :=
  [ImageHullViper, ImageHullScout, ImageHullHunter, ImageHullFighter, ImageHullScorpion,
   ImageHullMammoth, ImageTurretBuilder, ImageTurretGatlingGun, ImageTurretLightCannon,
   ImageTurretDualCannon, ImageTurretHeavyCannon, ImageTurretRailgun, ImageTurretLancer,
   ImageTurretGauss, ImageTurretIon, ImageBattlePost, ImageAmmoGatlingGun,
   ImageAmmoMediumCannon, ImageAmmoDualCannon, ImageAmmoLancer, ImageAmmoGauss, ImageAmmoIon,
   ImageExplosion, ImageBackgroundTiles, ImageSectorSelector, ImageUnitSelector, ImageGrid,
   ImageIronResourceIcon, ImageGoldResourceIcon, ImageOilResourceIcon,
   ImageCombinedResourceIcon, ImageResourceRow, ImagePopupBuildTank, ImageMenuBackground,
   ImageMenuButton, ImageMenuSelectButton, ImageMenuCheckboxButton, ImageMenuSlideLeft]

/-- The `AudioID` constants of the third `const` block, in declaration order. -/
def declaredAudioIDs : List AudioID :=
  [AudioGatlingGun, AudioLightCannon, AudioDualCannon, AudioHeavyCannon, AudioRailgun,
   AudioLancer, AudioGauss, AudioIon, AudioMusic]

/-- The `FontID` constants of the fourth `const` block, in declaration order. -/
def declaredFontIDs : List FontID := [FontSmall, FontDescription, FontBig]

/-- The `RawID` constant of the fifth `const` block. -/
def declaredRawIDs : List RawID := [RawTilesJSON]

/-! ## Resource descriptors and the four registration tables (main.go, lines 159-240) -/

/-- Modelled from the spec: the descriptor `resource.Audio`, a path plus the "playback volume
offset"; its declaration in package `resource` is not among the sources, the fields are the
ones the literals of `main` set. `Volume` holds the decimal value of the source literal; an
omitted field has Go's zero value. -/
structure Audio where
  Path : String
  Volume : ℚ := 0
  deriving DecidableEq

/-- Modelled from the spec: the descriptor `resource.ImageInfo`, a path; its declaration in
package `resource` is not among the sources, the field is the one the literals of `main`
set. -/
structure ImageInfo where
  Path : String
  deriving DecidableEq

/-- Modelled from the spec: the descriptor `resource.Font`, a path plus "pixel size and
line-spacing multiplier"; its declaration in package `resource` is not among the sources, the
fields are the ones the literals of `main` set. `LineSpacing` holds the decimal value of the
source literal; an omitted field has Go's zero value. -/
structure Font where
  Path : String
  Size : Int := 0
  LineSpacing : ℚ := 0
  deriving DecidableEq

/-- Modelled from the spec: the descriptor `resource.Raw`, a path; its declaration in package
`resource` is not among the sources, the field is the one the literal of `main` sets. -/
structure Raw where
  Path : String
  deriving DecidableEq

def audioResources : List (AudioID × Audio) :=
  [ (AudioGatlingGun,  { Path := "sounds/gatling_gun.wav", Volume := -0.5 }),
    (AudioLightCannon, { Path := "sounds/light_cannon.wav", Volume := -0.4 }),
    (AudioDualCannon,  { Path := "sounds/dual_cannon.wav", Volume := -0.3 }),
    (AudioHeavyCannon, { Path := "sounds/heavy_cannon.wav", Volume := -0.75 }),
    (AudioRailgun,     { Path := "sounds/railgun.wav", Volume := -0.5 }),
    (AudioLancer,      { Path := "sounds/lancer.wav", Volume := -0.75 }),
    (AudioGauss,       { Path := "sounds/gauss.wav", Volume := -0.5 }),
    (AudioIon,         { Path := "sounds/ion.wav", Volume := -0.5 }),
    (AudioMusic,       { Path := "sounds/music.ogg" }) ]

def imageResources : List (ImageID × ImageInfo) :=
  [ (ImageHullViper,            { Path := "hull_viper.png" }),
    (ImageHullScout,            { Path := "hull_scout.png" }),
    (ImageHullHunter,           { Path := "hull_hunter.png" }),
    (ImageHullFighter,          { Path := "hull_fighter.png" }),
    (ImageHullScorpion,         { Path := "hull_scorpion.png" }),
    (ImageHullMammoth,          { Path := "hull_mammoth.png" }),
    (ImageTurretBuilder,        { Path := "turret_builder.png" }),
    (ImageTurretGatlingGun,     { Path := "turret_gatling_gun.png" }),
    (ImageTurretLightCannon,    { Path := "turret_light_cannon.png" }),
    (ImageTurretDualCannon,     { Path := "turret_dual_cannon.png" }),
    (ImageTurretHeavyCannon,    { Path := "turret_heavy_cannon.png" }),
    (ImageTurretRailgun,        { Path := "turret_railgun.png" }),
    (ImageTurretLancer,         { Path := "turret_lancer.png" }),
    (ImageTurretGauss,          { Path := "turret_gauss.png" }),
    (ImageTurretIon,            { Path := "turret_ion.png" }),
    (ImageBattlePost,           { Path := "battle_post.png" }),
    (ImageAmmoGatlingGun,       { Path := "ammo_gatling_gun.png" }),
    (ImageAmmoMediumCannon,     { Path := "ammo_medium_cannon.png" }),
    (ImageAmmoDualCannon,       { Path := "ammo_dual_cannon.png" }),
    (ImageAmmoLancer,           { Path := "ammo_lancer.png" }),
    (ImageAmmoGauss,            { Path := "ammo_gauss.png" }),
    (ImageAmmoIon,              { Path := "ammo_ion.png" }),
    (ImageExplosion,            { Path := "explosion.png" }),
    (ImageBackgroundTiles,      { Path := "tiles.png" }),
    (ImageSectorSelector,       { Path := "sector_selector.png" }),
    (ImageUnitSelector,         { Path := "unit_selector.png" }),
    (ImageGrid,                 { Path := "grid.png" }),
    (ImageIronResourceIcon,     { Path := "resource_iron.png" }),
    (ImageGoldResourceIcon,     { Path := "resource_gold.png" }),
    (ImageOilResourceIcon,      { Path := "resource_oil.png" }),
    (ImageCombinedResourceIcon, { Path := "resource_combined.png" }),
    (ImageResourceRow,          { Path := "resource_row.png" }),
    (ImagePopupBuildTank,       { Path := "popup_build_tank.png" }),
    (ImageMenuButton,           { Path := "menu_button.png" }),
    (ImageMenuSelectButton,     { Path := "menu_select_button.png" }),
    (ImageMenuCheckboxButton,   { Path := "menu_checkbox_button.png" }),
    (ImageMenuSlideLeft,        { Path := "menu_slide_left.png" }),
    (ImageMenuBackground,       { Path := "menu_bg.png" }) ]

def fontResources : List (FontID × Font) :=
  [ (FontSmall,       { Path := "DejavuSansMono.ttf", Size := 12 }),
    (FontDescription, { Path := "DejavuSansMono.ttf", Size := 14, LineSpacing := 1.15 }),
    (FontBig,         { Path := "DejavuSansMono.ttf", Size := 20 }) ]

def rawResources : List (RawID × Raw) :=
  [ (RawTilesJSON, { Path := "tiles.json" }) ]

/-- One call that `main` makes on `ctx.Loader` during start-up. -/
inductive Call where
  | AudioRegistry_Set (id : AudioID) (res : Audio)
  | PreloadAudio (id : AudioID)
  | ImageRegistry_Set (id : ImageID) (res : ImageInfo)
  | PreloadImage (id : ImageID)
  | FontRegistry_Set (id : FontID) (res : Font)
  | PreloadFont (id : FontID)
  | RawRegistry_Set (id : RawID) (res : Raw)
  | PreloadRaw (id : RawID)
  deriving DecidableEq

/-- The loader calls of `main` (lines 171-174, 217-220, 228-231, 237-240), in the order they
are made, when the four `range` loops visit their maps in the orders `oa`, `oi`, `ofn`, `orw`. -/
def startupCalls (oa : List (AudioID × Audio)) (oi : List (ImageID × ImageInfo))
    (ofn : List (FontID × Font)) (orw : List (RawID × Raw)) : List Call :=
  (oa.flatMap fun e => [Call.AudioRegistry_Set e.1 e.2, Call.PreloadAudio e.1]) ++
  (oi.flatMap fun e => [Call.ImageRegistry_Set e.1 e.2, Call.PreloadImage e.1]) ++
  (ofn.flatMap fun e => [Call.FontRegistry_Set e.1 e.2, Call.PreloadFont e.1]) ++
  (orw.flatMap fun e => [Call.RawRegistry_Set e.1 e.2, Call.PreloadRaw e.1])

/-! ## Key bindings and input handlers (main.go, lines 117-157, 250-255) -/

/-- Modelled from the spec: the engine's key vocabulary, "a fixed, engine-defined enumeration
of physical keys per device family"; package `input` is not among the sources. The keys listed
are the ones `main` names. -/
inductive Key where
  | KeyA | KeyD | KeyS | KeyW | KeySpace | KeyEnter | KeyQ | KeyE | KeyEscape
  | KeyGamepadLeft | KeyGamepadRight | KeyGamepadDown | KeyGamepadUp
  | KeyGamepadA | KeyGamepadX | KeyGamepadB | KeyGamepadY | KeyGamepadStart
  deriving DecidableEq, Repr

/-- The two device families `main` binds. -/
inductive DeviceFamily where
  | keyboard
  | gamepad
  deriving DecidableEq, Repr

/-- Modelled from the spec: the device family a key belongs to ("keyboard keys", "gamepad
button/direction sets"); package `input` is not among the sources. The `KeyGamepad...`
constants are the gamepad keys. -/
def Key.family : Key → DeviceFamily
  | .KeyA | .KeyD | .KeyS | .KeyW | .KeySpace | .KeyEnter | .KeyQ | .KeyE | .KeyEscape =>
      .keyboard
  | .KeyGamepadLeft | .KeyGamepadRight | .KeyGamepadDown | .KeyGamepadUp
  | .KeyGamepadA | .KeyGamepadX | .KeyGamepadB | .KeyGamepadY | .KeyGamepadStart =>
      .gamepad

/-- The map literal passed to `input.MakeKeymap` at lines 120-134. -/
def gamepadBindings : List (Action × Key) :=
  [ (ActionSectorLeft,   .KeyGamepadLeft),
    (ActionSectorRight,  .KeyGamepadRight),
    (ActionSectorDown,   .KeyGamepadDown),
    (ActionSectorUp,     .KeyGamepadUp),
    (ActionConfirm,      .KeyGamepadA),
    (ActionOpenMenu,     .KeyGamepadX),
    (ActionCancel,       .KeyGamepadB),
    (ActionPrevItem,     .KeyGamepadLeft),
    (ActionNextItem,     .KeyGamepadRight),
    (ActionNextCategory, .KeyGamepadDown),
    (ActionPrevCategory, .KeyGamepadUp),
    (ActionFortify,      .KeyGamepadY),
    (ActionExit,         .KeyGamepadStart) ]

/-- The map literal passed to `input.MakeKeymap` at lines 135-149. -/
def keyboardBindings : List (Action × Key) :=
  [ (ActionSectorLeft,   .KeyA),
    (ActionSectorRight,  .KeyD),
    (ActionSectorDown,   .KeyS),
    (ActionSectorUp,     .KeyW),
    (ActionConfirm,      .KeySpace),
    (ActionOpenMenu,     .KeyEnter),
    (ActionCancel,       .KeyQ),
    (ActionPrevItem,     .KeyA),
    (ActionNextItem,     .KeyD),
    (ActionNextCategory, .KeyS),
    (ActionPrevCategory, .KeyW),
    (ActionFortify,      .KeyE),
    (ActionExit,         .KeyEscape) ]

/-- Modelled from the spec: a `Keymap` is "an immutable mapping from Action → Key"; an action
that is unbound resolves to `none`. Package `input` is not among the sources. -/
def Keymap := Action → Option Key

/-- Modelled from the spec: `MakeKeymap(table)` resolves the actions of the table "to their
specified Keys" and every other action to unbound. The entries of a Go map have pairwise
distinct keys. Package `input` is not among the sources. -/
def MakeKeymap (table : List (Action × Key)) : Keymap :=
  fun a => table.lookup a

def gamepadKeymap : Keymap := MakeKeymap gamepadBindings

def keyboardKeymap : Keymap := MakeKeymap keyboardBindings

/-- Modelled from the spec: a `Handler` is an object "binding one device slot index ... to one
Keymap". Package `input` is not among the sources. -/
structure Handler where
  slot : Nat
  keymap : Keymap

/-- A `*input.Handler`: the position of the handler among the objects of the input system. -/
abbrev HandlerPtr := Nat

/-- The handlers `ctx.Input` has constructed so far, oldest first. -/
structure InputSystem where
  handlers : List Handler

/-- Modelled from the spec: `NewHandler(deviceSlot, keymap)` constructs a new handler for the
slot and keymap, with no failure mode, and returns a pointer to it. Package `input` is not
among the sources. -/
def InputSystem.NewHandler (sys : InputSystem) (deviceSlot : Nat) (keymap : Keymap) :
    HandlerPtr × InputSystem :=
  (sys.handlers.length, { handlers := sys.handlers ++ [{ slot := deviceSlot, keymap := keymap }] })

/-- The struct `gameState` (lines 250-255); a nil pointer is `none`. -/
structure gameState where
  MainInput : Option HandlerPtr
  Player1keyboard : Option HandlerPtr
  Player1gamepad : Option HandlerPtr
  Player2gamepad : Option HandlerPtr

/-- Lines 117 and 150-157 of `main`: the handlers are constructed and `MainInput` is chosen
by the `-gamepad` flag. Returns the game state and the input system. -/
def bindControls (gamepad : Bool) (input : InputSystem) : gameState × InputSystem :=
  let state : gameState :=
    { MainInput := none, Player1keyboard := none, Player1gamepad := none, Player2gamepad := none }
  let r1 := input.NewHandler 0 keyboardKeymap
  let state := { state with Player1keyboard := some r1.1 }
  let r2 := r1.2.NewHandler 0 gamepadKeymap
  let state := { state with Player1gamepad := some r2.1 }
  let r3 := r2.2.NewHandler 1 gamepadKeymap
  let state := { state with Player2gamepad := some r3.1 }
  let state :=
    if gamepad then { state with MainInput := state.Player1gamepad }
    else { state with MainInput := state.Player1keyboard }
  (state, r3.2)

/-- The handler a pointer of the game state refers to. -/
def InputSystem.deref (sys : InputSystem) (p : Option HandlerPtr) : Option Handler :=
  p.bind fun i => sys.handlers.get? i

/-! ## The asset-open function (main.go, lines 109-115) -/

/-- A Go `error` value that reaches `ctx.OnCriticalError`: an error of the embedded file
system, or the loader's error for a preload of an id that has no descriptor. -/
inductive Error (E : Type) where
  | fs (err : E)
  | unregistered (preload : Call)

/-- The observable effects of start-up: the names requested from `gameAssets`, and the
arguments `ctx.OnCriticalError` was invoked with, both oldest first. -/
structure Effects (E : Type) where
  opened : List String
  critical : List (Error E)

/-- The hook `ctx.OnCriticalError`, a callback of the context: the invocation and its argument
are recorded. -/
def OnCriticalError {E : Type} (err : Error E) (w : Effects E) : Effects E :=
  { w with critical := w.critical ++ [err] }

/-- The call `gameAssets.Open(name)` of `embed.FS`, for a bundle given by its content
`gameAssets`: the request is recorded, and the result is Go's pair `(f, err)`, where `f` is
nil exactly when `err` is not. -/
def gameAssets_Open {E F : Type} (gameAssets : String → Except E F) (name : String)
    (w : Effects E) : (Option F × Option E) × Effects E :=
  let w := { w with opened := w.opened ++ [name] }
  match gameAssets name with
  | .ok f => ((some f, none), w)
  | .error err => ((none, some err), w)

/-- The closure assigned to `ctx.Loader.OpenAssetFunc`; `none` is the nil `io.ReadCloser`. -/
def OpenAssetFunc {E F : Type} (gameAssets : String → Except E F) (path : String)
    (w : Effects E) : Option F × Effects E :=
  let r := gameAssets_Open gameAssets ("assets/" ++ path) w
  let f := r.1.1
  let err := r.1.2
  let w := r.2
  let w := match err with
    | some e => OnCriticalError (Error.fs e) w
    | none => w
  (f, w)

/-! ## The loader (package `ge`, not among the sources) -/

/-- Modelled from the spec: a `Registry` is "a mapping from ResourceID → ResourceDescriptor".
The loader's registries are not among the sources. -/
structure Registry (D : Type) where
  mapping : Nat → Option D

/-- The registry of a fresh context. -/
def Registry.empty {D : Type} : Registry D := { mapping := fun _ => none }

/-- Modelled from the spec: `Set(id, descriptor)` "inserts or overwrites the descriptor for
id". The loader's registries are not among the sources. -/
def Registry.Set {D : Type} (r : Registry D) (id : Nat) (d : D) : Registry D :=
  { mapping := fun k => if k = id then some d else r.mapping k }

/-- A request to load the asset of a descriptor, as issued by a preload. -/
inductive LoadRequest where
  | audio (id : AudioID) (res : Audio)
  | image (id : ImageID) (res : ImageInfo)
  | font (id : FontID) (res : Font)
  | raw (id : RawID) (res : Raw)
  deriving DecidableEq

/-- The `Path` field of the descriptor of a load request. -/
def LoadRequest.Path : LoadRequest → String
  | .audio _ res => res.Path
  | .image _ res => res.Path
  | .font _ res => res.Path
  | .raw _ res => res.Path

/-- The loader `ctx.Loader` with what it has done so far. -/
structure Loader (E : Type) where
  AudioRegistry : Registry Audio
  ImageRegistry : Registry ImageInfo
  FontRegistry : Registry Font
  RawRegistry : Registry Raw
  requests : List LoadRequest
  effects : Effects E

/-- Modelled from the spec: the registries are "populated exactly once at startup", so the
loader of `ge.NewContext()` has empty registries and has done nothing yet. The loader is not
among the sources. -/
def Loader.new {E : Type} : Loader E :=
  { AudioRegistry := Registry.empty, ImageRegistry := Registry.empty,
    FontRegistry := Registry.empty, RawRegistry := Registry.empty,
    requests := [], effects := { opened := [], critical := [] } }

/-- Modelled from the spec: the load of a descriptor passes "the registered resource's Path
field" to the asset-open function. The loader is not among the sources. -/
def Loader.load {E F : Type} (openAsset : String → Effects E → Option F × Effects E)
    (l : Loader E) (req : LoadRequest) : Loader E :=
  { l with requests := l.requests ++ [req], effects := (openAsset req.Path l.effects).2 }

/-- Modelled from the spec: `Preload(id)` requests the loading of "the asset described by id's
current descriptor"; for "an id with no registered descriptor" it "triggers the critical-error
hook exactly once and does not proceed to load". The loader is not among the sources. -/
def Loader.preload {E F D : Type} (openAsset : String → Effects E → Option F × Effects E)
    (l : Loader E) (current : Option D) (mk : D → LoadRequest) (call : Call) : Loader E :=
  match current with
  | some d => l.load openAsset (mk d)
  | none => { l with effects := OnCriticalError (Error.unregistered call) l.effects }

/-- The effect of one call of `main` on the loader. -/
def Loader.exec {E F : Type} (openAsset : String → Effects E → Option F × Effects E)
    (l : Loader E) : Call → Loader E
  | .AudioRegistry_Set id res => { l with AudioRegistry := l.AudioRegistry.Set id res }
  | .ImageRegistry_Set id res => { l with ImageRegistry := l.ImageRegistry.Set id res }
  | .FontRegistry_Set id res => { l with FontRegistry := l.FontRegistry.Set id res }
  | .RawRegistry_Set id res => { l with RawRegistry := l.RawRegistry.Set id res }
  | .PreloadAudio id =>
      l.preload openAsset (l.AudioRegistry.mapping id) (LoadRequest.audio id) (.PreloadAudio id)
  | .PreloadImage id =>
      l.preload openAsset (l.ImageRegistry.mapping id) (LoadRequest.image id) (.PreloadImage id)
  | .PreloadFont id =>
      l.preload openAsset (l.FontRegistry.mapping id) (LoadRequest.font id) (.PreloadFont id)
  | .PreloadRaw id =>
      l.preload openAsset (l.RawRegistry.mapping id) (LoadRequest.raw id) (.PreloadRaw id)

/-- The loader after a sequence of calls. -/
def Loader.run {E F : Type} (openAsset : String → Effects E → Option F × Effects E)
    (l : Loader E) (calls : List Call) : Loader E :=
  calls.foldl (Loader.exec openAsset) l

/-- The loader at the end of the four registration loops of `main`, for the embedded bundle
`gameAssets` and the iteration orders `oa`, `oi`, `ofn`, `orw`. -/
def startup {E F : Type} (gameAssets : String → Except E F) (oa : List (AudioID × Audio))
    (oi : List (ImageID × ImageInfo)) (ofn : List (FontID × Font)) (orw : List (RawID × Raw)) :
    Loader E :=
  Loader.run (OpenAssetFunc gameAssets) Loader.new (startupCalls oa oi ofn orw)

/-- The `Path` fields of the four registration tables of `main`. -/
def registeredPaths : List String :=
  audioResources.map (fun e => e.2.Path) ++ imageResources.map (fun e => e.2.Path) ++
  fontResources.map (fun e => e.2.Path) ++ rawResources.map (fun e => e.2.Path)

/-- A bundle that holds `assets/tiles.json` only; the error of a failed open is the name. -/
def sampleAssets : String → Except String String :=
  fun name => if name = "assets/tiles.json" then Except.ok "tiles" else Except.error name

/-! ## Auxiliary facts about lists of entries -/

theorem getElem?_append_offset {α : Type} (l l2 : List α) (i : Nat) :
    (l ++ l2)[l.length + i]? = l2[i]? := by
  rw [List.getElem?_append_right (by omega)]
  simp

theorem lookup_of_mem_nodup {V : Type} :
    ∀ (l : List (Nat × V)) (k : Nat) (v : V), (l.map Prod.fst).Nodup → (k, v) ∈ l →
      l.lookup k = some v
  | [], _, _, _, h => by simp at h
  | (k0, v0) :: rest, k, v, hn, h => by
      rw [List.map_cons, List.nodup_cons] at hn
      rcases List.mem_cons.1 h with h1 | h2
      · cases h1
        simp [List.lookup_cons]
      · have hk : k ≠ k0 := by
          rintro rfl
          exact hn.1 (List.mem_map.2 ⟨(k, v), h2, rfl⟩)
        have hb : (k == k0) = false := by simpa using hk
        rw [List.lookup_cons, hb]
        exact lookup_of_mem_nodup rest k v hn.2 h2

theorem mem_of_lookup {V : Type} :
    ∀ (l : List (Nat × V)) (k : Nat) (v : V), l.lookup k = some v → (k, v) ∈ l
  | [], _, _, h => by simp at h
  | (k0, v0) :: rest, k, v, h => by
      rw [List.lookup_cons] at h
      by_cases hk : k = k0
      · subst hk
        have hv : v0 = v := by simpa using h
        subst hv
        exact List.mem_cons_self _ _
      · have hb : (k == k0) = false := by simpa using hk
        rw [hb] at h
        exact List.mem_cons_of_mem _ (mem_of_lookup rest k v h)

theorem lookup_none_of_not_mem {V : Type} :
    ∀ (l : List (Nat × V)) (k : Nat), k ∉ l.map Prod.fst → l.lookup k = none
  | [], _, _ => rfl
  | (k0, v0) :: rest, k, h => by
      rw [List.map_cons, List.mem_cons, not_or] at h
      have hb : (k == k0) = false := by simpa using h.1
      rw [List.lookup_cons, hb]
      exact lookup_none_of_not_mem rest k h.2

/-! ## The identifier namespaces -/

/-- C8: every identifier namespace is dense, zero-based and free of duplicates: the 13
actions are 0..12, the 38 image ids 0..37, the 9 audio ids 0..8, the 3 font ids 0..2 and the
raw id is 0. -/
theorem identifiers_dense_from_zero :
    (declaredActions = List.range 13 ∧ declaredActions.Nodup) ∧
    (declaredImageIDs = List.range 38 ∧ declaredImageIDs.Nodup) ∧
    (declaredAudioIDs = List.range 9 ∧ declaredAudioIDs.Nodup) ∧
    (declaredFontIDs = List.range 3 ∧ declaredFontIDs.Nodup) ∧
    (declaredRawIDs = List.range 1 ∧ declaredRawIDs.Nodup) := by
  refine ⟨⟨?_, ?_⟩, ⟨?_, ?_⟩, ⟨?_, ?_⟩, ⟨?_, ?_⟩, ⟨?_, ?_⟩⟩ <;> decide

/-! ## The keymaps -/

/-- C5: each of the two binding tables has exactly 13 pairwise distinct actions, which are
the 13 declared actions; the keymap made from a table resolves every action of the table to
the key the table gives, every declared action is bound, and no other action is bound. -/
theorem keymaps_bind_exactly_declared_actions :
    (gamepadBindings.length = 13 ∧ (gamepadBindings.map Prod.fst).Nodup ∧
      (∀ a, a ∈ gamepadBindings.map Prod.fst ↔ a ∈ declaredActions) ∧
      (∀ e ∈ gamepadBindings, gamepadKeymap e.1 = some e.2) ∧
      (∀ a ∈ declaredActions, ∃ k, gamepadKeymap a = some k ∧ (a, k) ∈ gamepadBindings) ∧
      (∀ a, a ∉ declaredActions → gamepadKeymap a = none)) ∧
    (keyboardBindings.length = 13 ∧ (keyboardBindings.map Prod.fst).Nodup ∧
      (∀ a, a ∈ keyboardBindings.map Prod.fst ↔ a ∈ declaredActions) ∧
      (∀ e ∈ keyboardBindings, keyboardKeymap e.1 = some e.2) ∧
      (∀ a ∈ declaredActions, ∃ k, keyboardKeymap a = some k ∧ (a, k) ∈ keyboardBindings) ∧
      (∀ a, a ∉ declaredActions → keyboardKeymap a = none)) := by
  have hg : (gamepadBindings.map Prod.fst).Perm declaredActions := by decide
  have hk : (keyboardBindings.map Prod.fst).Perm declaredActions := by decide
  refine ⟨⟨by decide, by decide, fun a => hg.mem_iff, by decide, by decide, ?_⟩,
    ⟨by decide, by decide, fun a => hk.mem_iff, by decide, by decide, ?_⟩⟩
  · intro a ha
    exact lookup_none_of_not_mem _ a (fun h => ha (hg.mem_iff.1 h))
  · intro a ha
    exact lookup_none_of_not_mem _ a (fun h => ha (hk.mem_iff.1 h))

/-- C6: every key of the gamepad table is a gamepad key and every key of the keyboard table a
keyboard key, so the two keymaps share no key; `ActionSectorLeft` is bound to `KeyA` on the
keyboard and to `KeyGamepadLeft` on the gamepad, no action is bound to `KeyA` in the gamepad
keymap and none to `KeyGamepadLeft` in the keyboard keymap. -/
theorem keymaps_single_device_family :
    (∀ e ∈ gamepadBindings, e.2.family = DeviceFamily.gamepad) ∧
    (∀ e ∈ keyboardBindings, e.2.family = DeviceFamily.keyboard) ∧
    (∀ a b k, gamepadKeymap a = some k → keyboardKeymap b ≠ some k) ∧
    keyboardKeymap ActionSectorLeft = some Key.KeyA ∧
    gamepadKeymap ActionSectorLeft = some Key.KeyGamepadLeft ∧
    (∀ a, gamepadKeymap a ≠ some Key.KeyA) ∧
    (∀ a, keyboardKeymap a ≠ some Key.KeyGamepadLeft) := by
  have hg : ∀ e ∈ gamepadBindings, e.2.family = DeviceFamily.gamepad := by decide
  have hk : ∀ e ∈ keyboardBindings, e.2.family = DeviceFamily.keyboard := by decide
  refine ⟨hg, hk, ?_, by decide, by decide, ?_, ?_⟩
  · intro a b k h1 h2
    have e1 := hg _ (mem_of_lookup _ a k h1)
    have e2 := hk _ (mem_of_lookup _ b k h2)
    simp only [e1] at e2
    exact absurd e2 (by decide)
  · intro a h
    have e := hg _ (mem_of_lookup _ a _ h)
    simp [Key.family] at e
  · intro a h
    have e := hk _ (mem_of_lookup _ a _ h)
    simp [Key.family] at e

/-! ## The handlers -/

/-- C7: for both values of the flag the three handlers are (slot 0, keyboard keymap),
(slot 0, gamepad keymap) and (slot 1, gamepad keymap), three distinct objects; `MainInput` is
the pointer `Player1gamepad` when the flag is set and `Player1keyboard` otherwise; the flag
changes no other field of the game state and nothing in the input system. -/
theorem main_input_selected_by_flag (gamepad : Bool) (input : InputSystem) :
    let r := bindControls gamepad input
    r.2.deref r.1.Player1keyboard = some { slot := 0, keymap := keyboardKeymap } ∧
    r.2.deref r.1.Player1gamepad = some { slot := 0, keymap := gamepadKeymap } ∧
    r.2.deref r.1.Player2gamepad = some { slot := 1, keymap := gamepadKeymap } ∧
    r.1.Player1keyboard ≠ r.1.Player1gamepad ∧ r.1.Player1gamepad ≠ r.1.Player2gamepad ∧
    r.1.Player1keyboard ≠ r.1.Player2gamepad ∧
    r.1.MainInput = (if gamepad then r.1.Player1gamepad else r.1.Player1keyboard) ∧
    r.1.MainInput ≠ r.1.Player2gamepad ∧
    r.1.MainInput ≠ (if gamepad then r.1.Player1keyboard else r.1.Player1gamepad) ∧
    r.1.Player1keyboard = (bindControls (!gamepad) input).1.Player1keyboard ∧
    r.1.Player1gamepad = (bindControls (!gamepad) input).1.Player1gamepad ∧
    r.1.Player2gamepad = (bindControls (!gamepad) input).1.Player2gamepad ∧
    r.2 = (bindControls (!gamepad) input).2 ∧
    r.2.handlers = input.handlers ++ [{ slot := 0, keymap := keyboardKeymap },
      { slot := 0, keymap := gamepadKeymap }, { slot := 1, keymap := gamepadKeymap }] := by
  have h0 := getElem?_append_offset input.handlers
    [{ slot := 0, keymap := keyboardKeymap }, { slot := 0, keymap := gamepadKeymap },
      ({ slot := 1, keymap := gamepadKeymap } : Handler)] 0
  have h1 := getElem?_append_offset input.handlers
    [{ slot := 0, keymap := keyboardKeymap }, { slot := 0, keymap := gamepadKeymap },
      ({ slot := 1, keymap := gamepadKeymap } : Handler)] 1
  have h2 := getElem?_append_offset input.handlers
    [{ slot := 0, keymap := keyboardKeymap }, { slot := 0, keymap := gamepadKeymap },
      ({ slot := 1, keymap := gamepadKeymap } : Handler)] 2
  rw [Nat.add_zero] at h0
  cases gamepad <;>
    simp [bindControls, InputSystem.NewHandler, InputSystem.deref, List.get?_eq_getElem?,
      h0, h1, h2, -List.getElem?_eq_getElem] <;> simp

/-! ## The asset-open function -/

/-- C4: for every path the asset-open function requests exactly the name `"assets/" ++ path`
from the bundle; when that open fails the hook is invoked exactly once, with the error of the
open, and the nil stream is returned; when it succeeds the opened stream is returned and the
hook is not invoked. -/
theorem open_asset_func_contract {E F : Type} (gameAssets : String → Except E F)
    (path : String) (w : Effects E) :
    (OpenAssetFunc gameAssets path w).2.opened = w.opened ++ ["assets/" ++ path] ∧
    (∀ err, gameAssets ("assets/" ++ path) = Except.error err →
      (OpenAssetFunc gameAssets path w).1 = none ∧
      (OpenAssetFunc gameAssets path w).2.critical = w.critical ++ [Error.fs err]) ∧
    (∀ f, gameAssets ("assets/" ++ path) = Except.ok f →
      (OpenAssetFunc gameAssets path w).1 = some f ∧
      (OpenAssetFunc gameAssets path w).2.critical = w.critical) := by
  refine ⟨?_, ?_, ?_⟩
  · cases h : gameAssets ("assets/" ++ path) <;>
      simp [OpenAssetFunc, gameAssets_Open, OnCriticalError, h]
  · intro err h
    simp [OpenAssetFunc, gameAssets_Open, OnCriticalError, h]
  · intro f h
    simp [OpenAssetFunc, gameAssets_Open, OnCriticalError, h]

theorem open_asset_func_contract_witness :
    ((OpenAssetFunc sampleAssets "menu_bg.png" { opened := [], critical := [] }).1 = none ∧
      (OpenAssetFunc sampleAssets "menu_bg.png" { opened := [], critical := [] }).2.critical =
        [] ++ [Error.fs "assets/menu_bg.png"]) ∧
    ((OpenAssetFunc sampleAssets "tiles.json" { opened := [], critical := [] }).1 = some "tiles" ∧
      (OpenAssetFunc sampleAssets "tiles.json" { opened := [], critical := [] }).2.critical =
        []) :=
  ⟨(open_asset_func_contract sampleAssets "menu_bg.png" { opened := [], critical := [] }).2.1
      "assets/menu_bg.png" (by simp [sampleAssets]),
    (open_asset_func_contract sampleAssets "tiles.json" { opened := [], critical := [] }).2.2
      "tiles" (by simp [sampleAssets])⟩

/-! ## The call trace of the registration loops -/

theorem split_append {α : Type} (t1 t2 before after : List α) (c : α)
    (h : t1 ++ t2 = before ++ c :: after) :
    (∃ a, t1 = before ++ c :: a) ∨ (∃ b, before = t1 ++ b ∧ t2 = b ++ c :: after) := by
  rcases List.append_eq_append_iff.1 h with ⟨a, h1, h2⟩ | ⟨c1, h1, h2⟩
  · exact Or.inr ⟨a, h1, h2⟩
  · cases c1 with
    | nil =>
        refine Or.inr ⟨[], ?_, ?_⟩
        · simpa using h1.symm
        · simpa using h2.symm
    | cons x xs =>
        rw [List.cons_append, List.cons.injEq] at h2
        refine Or.inl ⟨xs, ?_⟩
        rw [h1, h2.1]

theorem loop_split {K D : Type} (set : K → D → Call) (pre : K → Call) :
    ∀ (order : List (K × D)) (pfx b after : List Call) (c : Call),
      order.flatMap (fun e => [set e.1 e.2, pre e.1]) = b ++ c :: after →
      (∃ e ∈ order, c = set e.1 e.2) ∨
        (∃ e ∈ order, c = pre e.1 ∧ set e.1 e.2 ∈ pfx ++ b)
  | [], _, b, after, c, h => by simp at h
  | e :: rest, pfx, b, after, c, h => by
      rw [List.flatMap_cons] at h
      rcases split_append _ _ _ _ _ h with ⟨a, ha⟩ | ⟨b2, hb, h2⟩
      · match b, ha with
        | [], ha =>
            simp at ha
            exact Or.inl ⟨e, List.mem_cons_self _ _, ha.1.symm⟩
        | [x], ha =>
            simp at ha
            refine Or.inr ⟨e, List.mem_cons_self _ _, ha.2.1.symm, ?_⟩
            simp [ha.1]
        | x :: y :: zs, ha =>
            simp at ha
      · rcases loop_split set pre rest (pfx ++ [set e.1 e.2, pre e.1]) b2 after c h2 with
          ⟨e1, he1, hc⟩ | ⟨e1, he1, hc, hm⟩
        · exact Or.inl ⟨e1, List.mem_cons_of_mem _ he1, hc⟩
        · refine Or.inr ⟨e1, List.mem_cons_of_mem _ he1, hc, ?_⟩
          rw [hb]
          simpa [List.append_assoc] using hm

theorem startupCalls_split (oa : List (AudioID × Audio)) (oi : List (ImageID × ImageInfo))
    (ofn : List (FontID × Font)) (orw : List (RawID × Raw)) (before after : List Call)
    (c : Call) (h : startupCalls oa oi ofn orw = before ++ c :: after) :
    ((∃ e ∈ oa, c = Call.AudioRegistry_Set e.1 e.2) ∨
      (∃ e ∈ oa, c = Call.PreloadAudio e.1 ∧ Call.AudioRegistry_Set e.1 e.2 ∈ before)) ∨
    ((∃ e ∈ oi, c = Call.ImageRegistry_Set e.1 e.2) ∨
      (∃ e ∈ oi, c = Call.PreloadImage e.1 ∧ Call.ImageRegistry_Set e.1 e.2 ∈ before)) ∨
    ((∃ e ∈ ofn, c = Call.FontRegistry_Set e.1 e.2) ∨
      (∃ e ∈ ofn, c = Call.PreloadFont e.1 ∧ Call.FontRegistry_Set e.1 e.2 ∈ before)) ∨
    ((∃ e ∈ orw, c = Call.RawRegistry_Set e.1 e.2) ∨
      (∃ e ∈ orw, c = Call.PreloadRaw e.1 ∧ Call.RawRegistry_Set e.1 e.2 ∈ before)) := by
  unfold startupCalls at h
  rcases split_append _ _ _ _ _ h with ⟨a3, h3⟩ | ⟨b, hb, h3⟩
  · rcases split_append _ _ _ _ _ h3 with ⟨a2, h2⟩ | ⟨b, hb, h2⟩
    · rcases split_append _ _ _ _ _ h2 with ⟨a1, h1⟩ | ⟨b, hb, h1⟩
      · have := loop_split Call.AudioRegistry_Set Call.PreloadAudio oa [] before a1 c h1
        exact Or.inl (by simpa using this)
      · subst hb
        exact Or.inr (Or.inl (loop_split Call.ImageRegistry_Set Call.PreloadImage oi _ b _ c h1))
    · subst hb
      exact Or.inr (Or.inr (Or.inl
        (loop_split Call.FontRegistry_Set Call.PreloadFont ofn _ b _ c h2)))
  · subst hb
    exact Or.inr (Or.inr (Or.inr
      (loop_split Call.RawRegistry_Set Call.PreloadRaw orw _ b _ c h3)))

theorem startupCalls_perm {oa : List (AudioID × Audio)} {oi : List (ImageID × ImageInfo)}
    {ofn : List (FontID × Font)} {orw : List (RawID × Raw)}
    (ha : oa.Perm audioResources) (hi : oi.Perm imageResources)
    (hf : ofn.Perm fontResources) (hr : orw.Perm rawResources) :
    (startupCalls oa oi ofn orw).Perm
      (startupCalls audioResources imageResources fontResources rawResources) :=
  (((ha.flatMap_right _).append (hi.flatMap_right _)).append (hf.flatMap_right _)).append
    (hr.flatMap_right _)

theorem startupCalls_nodup :
    (startupCalls audioResources imageResources fontResources rawResources).Nodup := by
  decide

theorem mem_startupCalls (oa : List (AudioID × Audio)) (oi : List (ImageID × ImageInfo))
    (ofn : List (FontID × Font)) (orw : List (RawID × Raw)) (c : Call) :
    c ∈ startupCalls oa oi ofn orw ↔
      (∃ e ∈ oa, c = Call.AudioRegistry_Set e.1 e.2 ∨ c = Call.PreloadAudio e.1) ∨
      (∃ e ∈ oi, c = Call.ImageRegistry_Set e.1 e.2 ∨ c = Call.PreloadImage e.1) ∨
      (∃ e ∈ ofn, c = Call.FontRegistry_Set e.1 e.2 ∨ c = Call.PreloadFont e.1) ∨
      (∃ e ∈ orw, c = Call.RawRegistry_Set e.1 e.2 ∨ c = Call.PreloadRaw e.1) := by
  simp only [startupCalls, List.mem_append, List.mem_flatMap, List.mem_cons, List.mem_singleton,
    List.not_mem_nil, or_false, or_assoc]

/-! ## The loader after the registration loops -/

theorem run_append {E F : Type} (op : String → Effects E → Option F × Effects E)
    (l : Loader E) (a b : List Call) :
    Loader.run op l (a ++ b) = Loader.run op (Loader.run op l a) b := by
  simp [Loader.run, List.foldl_append]

theorem run_audio_loop {E F : Type} (op : String → Effects E → Option F × Effects E) :
    ∀ (order : List (AudioID × Audio)) (l : Loader E),
      Loader.run op l
          (order.flatMap fun e => [Call.AudioRegistry_Set e.1 e.2, Call.PreloadAudio e.1]) =
        { l with
          AudioRegistry := order.foldl (fun r e => r.Set e.1 e.2) l.AudioRegistry
          requests := l.requests ++ order.map (fun e => LoadRequest.audio e.1 e.2)
          effects := (order.map fun e => e.2.Path).foldl (fun w q => (op q w).2) l.effects }
  | [], l => by simp [Loader.run]
  | e :: rest, l => by
      rw [List.flatMap_cons, run_append, run_audio_loop op rest]
      simp [Loader.run, Loader.exec, Loader.preload, Loader.load, Registry.Set,
        LoadRequest.Path]

theorem run_image_loop {E F : Type} (op : String → Effects E → Option F × Effects E) :
    ∀ (order : List (ImageID × ImageInfo)) (l : Loader E),
      Loader.run op l
          (order.flatMap fun e => [Call.ImageRegistry_Set e.1 e.2, Call.PreloadImage e.1]) =
        { l with
          ImageRegistry := order.foldl (fun r e => r.Set e.1 e.2) l.ImageRegistry
          requests := l.requests ++ order.map (fun e => LoadRequest.image e.1 e.2)
          effects := (order.map fun e => e.2.Path).foldl (fun w q => (op q w).2) l.effects }
  | [], l => by simp [Loader.run]
  | e :: rest, l => by
      rw [List.flatMap_cons, run_append, run_image_loop op rest]
      simp [Loader.run, Loader.exec, Loader.preload, Loader.load, Registry.Set,
        LoadRequest.Path]

theorem run_font_loop {E F : Type} (op : String → Effects E → Option F × Effects E) :
    ∀ (order : List (FontID × Font)) (l : Loader E),
      Loader.run op l
          (order.flatMap fun e => [Call.FontRegistry_Set e.1 e.2, Call.PreloadFont e.1]) =
        { l with
          FontRegistry := order.foldl (fun r e => r.Set e.1 e.2) l.FontRegistry
          requests := l.requests ++ order.map (fun e => LoadRequest.font e.1 e.2)
          effects := (order.map fun e => e.2.Path).foldl (fun w q => (op q w).2) l.effects }
  | [], l => by simp [Loader.run]
  | e :: rest, l => by
      rw [List.flatMap_cons, run_append, run_font_loop op rest]
      simp [Loader.run, Loader.exec, Loader.preload, Loader.load, Registry.Set,
        LoadRequest.Path]

theorem run_raw_loop {E F : Type} (op : String → Effects E → Option F × Effects E) :
    ∀ (order : List (RawID × Raw)) (l : Loader E),
      Loader.run op l
          (order.flatMap fun e => [Call.RawRegistry_Set e.1 e.2, Call.PreloadRaw e.1]) =
        { l with
          RawRegistry := order.foldl (fun r e => r.Set e.1 e.2) l.RawRegistry
          requests := l.requests ++ order.map (fun e => LoadRequest.raw e.1 e.2)
          effects := (order.map fun e => e.2.Path).foldl (fun w q => (op q w).2) l.effects }
  | [], l => by simp [Loader.run]
  | e :: rest, l => by
      rw [List.flatMap_cons, run_append, run_raw_loop op rest]
      simp [Loader.run, Loader.exec, Loader.preload, Loader.load, Registry.Set,
        LoadRequest.Path]

/-- The load requests of the four loops, in the order they are issued. -/
theorem startup_requests {E F : Type} (gameAssets : String → Except E F)
    (oa : List (AudioID × Audio)) (oi : List (ImageID × ImageInfo))
    (ofn : List (FontID × Font)) (orw : List (RawID × Raw)) :
    (startup gameAssets oa oi ofn orw).requests =
      oa.map (fun e => LoadRequest.audio e.1 e.2) ++ oi.map (fun e => LoadRequest.image e.1 e.2) ++
      ofn.map (fun e => LoadRequest.font e.1 e.2) ++ orw.map (fun e => LoadRequest.raw e.1 e.2) := by
  simp [startup, startupCalls, run_append, run_audio_loop, run_image_loop, run_font_loop,
    run_raw_loop, Loader.new]

theorem startup_registries {E F : Type} (gameAssets : String → Except E F)
    (oa : List (AudioID × Audio)) (oi : List (ImageID × ImageInfo))
    (ofn : List (FontID × Font)) (orw : List (RawID × Raw)) :
    (startup gameAssets oa oi ofn orw).AudioRegistry =
        oa.foldl (fun r e => r.Set e.1 e.2) Registry.empty ∧
    (startup gameAssets oa oi ofn orw).ImageRegistry =
        oi.foldl (fun r e => r.Set e.1 e.2) Registry.empty ∧
    (startup gameAssets oa oi ofn orw).FontRegistry =
        ofn.foldl (fun r e => r.Set e.1 e.2) Registry.empty ∧
    (startup gameAssets oa oi ofn orw).RawRegistry =
        orw.foldl (fun r e => r.Set e.1 e.2) Registry.empty := by
  simp [startup, startupCalls, run_append, run_audio_loop, run_image_loop, run_font_loop,
    run_raw_loop, Loader.new]

theorem startup_effects {E F : Type} (gameAssets : String → Except E F)
    (oa : List (AudioID × Audio)) (oi : List (ImageID × ImageInfo))
    (ofn : List (FontID × Font)) (orw : List (RawID × Raw)) :
    (startup gameAssets oa oi ofn orw).effects =
      ((startup gameAssets oa oi ofn orw).requests.map LoadRequest.Path).foldl
        (fun w q => (OpenAssetFunc gameAssets q w).2) { opened := [], critical := [] } := by
  rw [startup_requests]
  simp [startup, startupCalls, run_append, run_audio_loop, run_image_loop, run_font_loop,
    run_raw_loop, Loader.new, List.foldl_append, Function.comp_def, LoadRequest.Path]

theorem openAll_opened {E F : Type} (gameAssets : String → Except E F) :
    ∀ (paths : List String) (w : Effects E),
      (paths.foldl (fun w q => (OpenAssetFunc gameAssets q w).2) w).opened =
        w.opened ++ paths.map (fun q => "assets/" ++ q)
  | [], w => by simp
  | q :: rest, w => by
      rw [List.foldl_cons, openAll_opened gameAssets rest]
      cases h : gameAssets ("assets/" ++ q) <;>
        simp [OpenAssetFunc, gameAssets_Open, OnCriticalError, h]

theorem openAll_critical {E F : Type} (gameAssets : String → Except E F) :
    ∀ (paths : List String) (w : Effects E) (c : Error E),
      c ∈ (paths.foldl (fun w q => (OpenAssetFunc gameAssets q w).2) w).critical →
        c ∈ w.critical ∨ ∃ err, c = Error.fs err
  | [], w, c, h => Or.inl (by simpa using h)
  | q :: rest, w, c, h => by
      rw [List.foldl_cons] at h
      rcases openAll_critical gameAssets rest _ c h with h1 | h1
      · cases hq : gameAssets ("assets/" ++ q) with
        | ok f =>
            left
            simpa [OpenAssetFunc, gameAssets_Open, OnCriticalError, hq] using h1
        | error err =>
            have h2 : c ∈ w.critical ∨ c = Error.fs err := by
              simpa [OpenAssetFunc, gameAssets_Open, OnCriticalError, hq] using h1
            exact h2.imp id (fun h3 => ⟨err, h3⟩)
      · exact Or.inr h1

theorem fold_set_of_not_mem {D : Type} :
    ∀ (order : List (Nat × D)) (r : Registry D) (id : Nat), id ∉ order.map Prod.fst →
      (order.foldl (fun r e => r.Set e.1 e.2) r).mapping id = r.mapping id
  | [], _, _, _ => rfl
  | e :: rest, r, id, h => by
      rw [List.map_cons, List.mem_cons, not_or] at h
      rw [List.foldl_cons, fold_set_of_not_mem rest _ id h.2]
      simp [Registry.Set, h.1]

theorem fold_set_of_mem {D : Type} :
    ∀ (order : List (Nat × D)) (r : Registry D) (id : Nat) (d : D),
      (order.map Prod.fst).Nodup → (id, d) ∈ order →
      (order.foldl (fun r e => r.Set e.1 e.2) r).mapping id = some d
  | [], _, _, _, _, h => by simp at h
  | e :: rest, r, id, d, hn, h => by
      rw [List.map_cons, List.nodup_cons] at hn
      rw [List.foldl_cons]
      rcases List.mem_cons.1 h with h1 | h2
      · subst h1
        rw [fold_set_of_not_mem rest _ id hn.1]
        simp [Registry.Set]
      · exact fold_set_of_mem rest _ id d hn.2 h2

/-- The registry a loop leaves, for any iteration order of a table with distinct keys. -/
theorem fold_set_perm {D : Type} (table order : List (Nat × D))
    (hn : (table.map Prod.fst).Nodup) (hp : order.Perm table) :
    (∀ e ∈ table, (order.foldl (fun r e => r.Set e.1 e.2) Registry.empty).mapping e.1 = some e.2) ∧
    (∀ id, id ∉ table.map Prod.fst →
      (order.foldl (fun r e => r.Set e.1 e.2) Registry.empty).mapping id = none) := by
  have hn2 : (order.map Prod.fst).Nodup := ((hp.map Prod.fst).nodup_iff).2 hn
  constructor
  · intro e he
    exact fold_set_of_mem order _ e.1 e.2 hn2 (hp.mem_iff.2 he)
  · intro id hid
    rw [fold_set_of_not_mem order _ id (fun h => hid (((hp.map Prod.fst).mem_iff).1 h))]
    rfl

theorem fold_set_perm_eq {D : Type} (table o1 o2 : List (Nat × D))
    (hn : (table.map Prod.fst).Nodup) (h1 : o1.Perm table) (h2 : o2.Perm table) :
    o1.foldl (fun r e => r.Set e.1 e.2) Registry.empty =
      o2.foldl (fun r e => r.Set e.1 e.2) Registry.empty := by
  have key : ∀ id, (o1.foldl (fun r e => r.Set e.1 e.2) Registry.empty).mapping id =
      (o2.foldl (fun r e => r.Set e.1 e.2) Registry.empty).mapping id := by
    intro id
    by_cases hid : id ∈ table.map Prod.fst
    · obtain ⟨e, he, rfl⟩ := List.mem_map.1 hid
      rw [(fold_set_perm table o1 hn h1).1 e he, (fold_set_perm table o2 hn h2).1 e he]
    · rw [(fold_set_perm table o1 hn h1).2 id hid, (fold_set_perm table o2 hn h2).2 id hid]
  cases hr1 : o1.foldl (fun r e => r.Set e.1 e.2) Registry.empty with
  | mk m1 =>
    cases hr2 : o2.foldl (fun r e => r.Set e.1 e.2) Registry.empty with
    | mk m2 =>
      rw [hr1, hr2] at key
      exact congrArg Registry.mk (funext key)

theorem audio_keys_nodup : (audioResources.map Prod.fst).Nodup := by decide
theorem image_keys_nodup : (imageResources.map Prod.fst).Nodup := by decide
theorem font_keys_nodup : (fontResources.map Prod.fst).Nodup := by decide
theorem raw_keys_nodup : (rawResources.map Prod.fst).Nodup := by decide

theorem entry_unique {D : Type} (table : List (Nat × D)) (hn : (table.map Prod.fst).Nodup)
    (id : Nat) (d1 d2 : D) (h1 : (id, d1) ∈ table) (h2 : (id, d2) ∈ table) : d1 = d2 := by
  have e1 := lookup_of_mem_nodup table id d1 hn h1
  have e2 := lookup_of_mem_nodup table id d2 hn h2
  rw [e1] at e2
  exact Option.some.inj e2

theorem requests_nodup :
    (audioResources.map (fun e => LoadRequest.audio e.1 e.2) ++
      imageResources.map (fun e => LoadRequest.image e.1 e.2) ++
      fontResources.map (fun e => LoadRequest.font e.1 e.2) ++
      rawResources.map (fun e => LoadRequest.raw e.1 e.2)).Nodup := by
  decide

/-- In any iteration order, the trace holds each Set call and each Preload call of a table
entry exactly once. -/
theorem count_startupCalls (oa : List (AudioID × Audio))
    (oi : List (ImageID × ImageInfo)) (ofn : List (FontID × Font)) (orw : List (RawID × Raw))
    (ha : oa.Perm audioResources) (hi : oi.Perm imageResources)
    (hf : ofn.Perm fontResources) (hr : orw.Perm rawResources) (c : Call)
    (hc : c ∈ startupCalls audioResources imageResources fontResources rawResources) :
    (startupCalls oa oi ofn orw).count c = 1 := by
  rw [(startupCalls_perm ha hi hf hr).count_eq]
  exact List.count_eq_one_of_mem startupCalls_nodup hc

/-! ## The registration loops -/

/-- C1: for every kind and every iteration order of its table, each Preload call of the
start-up trace is preceded by a Set call for the same id, carrying the descriptor the table
registers for it; the loader is therefore never asked to preload an id without descriptor:
the critical-error hook is never invoked for an unregistered preload. -/
theorem preload_preceded_by_set {E F : Type} (gameAssets : String → Except E F)
    (oa : List (AudioID × Audio))
    (oi : List (ImageID × ImageInfo)) (ofn : List (FontID × Font)) (orw : List (RawID × Raw))
    (ha : oa.Perm audioResources) (hi : oi.Perm imageResources)
    (hf : ofn.Perm fontResources) (hr : orw.Perm rawResources) :
    (∀ before after id, startupCalls oa oi ofn orw = before ++ Call.PreloadAudio id :: after →
      ∃ res, (id, res) ∈ audioResources ∧ Call.AudioRegistry_Set id res ∈ before) ∧
    (∀ before after id, startupCalls oa oi ofn orw = before ++ Call.PreloadImage id :: after →
      ∃ res, (id, res) ∈ imageResources ∧ Call.ImageRegistry_Set id res ∈ before) ∧
    (∀ before after id, startupCalls oa oi ofn orw = before ++ Call.PreloadFont id :: after →
      ∃ res, (id, res) ∈ fontResources ∧ Call.FontRegistry_Set id res ∈ before) ∧
    (∀ before after id, startupCalls oa oi ofn orw = before ++ Call.PreloadRaw id :: after →
      ∃ res, (id, res) ∈ rawResources ∧ Call.RawRegistry_Set id res ∈ before) ∧
    (∀ call, Error.unregistered call ∉ (startup gameAssets oa oi ofn orw).effects.critical) := by
  refine ⟨?_, ?_, ?_, ?_, ?_⟩
  · intro before after id h
    rcases startupCalls_split _ _ _ _ _ _ _ h with
      (⟨e, _, hc⟩ | ⟨e, he, hc, hm⟩) | (⟨e, _, hc⟩ | ⟨e, _, hc, _⟩) |
      (⟨e, _, hc⟩ | ⟨e, _, hc, _⟩) | (⟨e, _, hc⟩ | ⟨e, _, hc, _⟩) <;>
      cases hc
    exact ⟨e.2, ha.mem_iff.1 he, hm⟩
  · intro before after id h
    rcases startupCalls_split _ _ _ _ _ _ _ h with
      (⟨e, _, hc⟩ | ⟨e, _, hc, _⟩) | (⟨e, _, hc⟩ | ⟨e, he, hc, hm⟩) |
      (⟨e, _, hc⟩ | ⟨e, _, hc, _⟩) | (⟨e, _, hc⟩ | ⟨e, _, hc, _⟩) <;>
      cases hc
    exact ⟨e.2, hi.mem_iff.1 he, hm⟩
  · intro before after id h
    rcases startupCalls_split _ _ _ _ _ _ _ h with
      (⟨e, _, hc⟩ | ⟨e, _, hc, _⟩) | (⟨e, _, hc⟩ | ⟨e, _, hc, _⟩) |
      (⟨e, _, hc⟩ | ⟨e, he, hc, hm⟩) | (⟨e, _, hc⟩ | ⟨e, _, hc, _⟩) <;>
      cases hc
    exact ⟨e.2, hf.mem_iff.1 he, hm⟩
  · intro before after id h
    rcases startupCalls_split _ _ _ _ _ _ _ h with
      (⟨e, _, hc⟩ | ⟨e, _, hc, _⟩) | (⟨e, _, hc⟩ | ⟨e, _, hc, _⟩) |
      (⟨e, _, hc⟩ | ⟨e, _, hc, _⟩) | (⟨e, _, hc⟩ | ⟨e, he, hc, hm⟩) <;>
      cases hc
    exact ⟨e.2, hr.mem_iff.1 he, hm⟩
  · intro call hmem
    rw [startup_effects] at hmem
    rcases openAll_critical gameAssets _ _ _ hmem with h1 | ⟨err, h1⟩
    · simp at h1
    · cases h1

theorem preload_preceded_by_set_witness :
    (∀ before after id,
      startupCalls audioResources.reverse imageResources.reverse fontResources.reverse
        rawResources.reverse = before ++ Call.PreloadAudio id :: after →
      ∃ res, (id, res) ∈ audioResources ∧ Call.AudioRegistry_Set id res ∈ before) ∧
    (∀ call, Error.unregistered call ∉
      (startup sampleAssets audioResources.reverse imageResources.reverse fontResources.reverse
        rawResources.reverse).effects.critical) :=
  have h := preload_preceded_by_set sampleAssets audioResources.reverse imageResources.reverse
    fontResources.reverse rawResources.reverse (List.reverse_perm _) (List.reverse_perm _)
    (List.reverse_perm _) (List.reverse_perm _)
  ⟨h.1, h.2.2.2.2⟩

/-- C2: for every entry `(id, d)` of the four tables (9 audio, 38 image, 3 font, 1 raw) and
every iteration order, the start-up trace holds exactly one Set call for `id`, which carries
`d`, and exactly one Preload call for `id`; every call of the trace is the Set or the Preload
of a table entry; and the loader issues exactly one load request for `AudioGatlingGun`, with
path `sounds/gatling_gun.wav` and volume -0.5. -/
theorem each_entry_set_and_preloaded_once {E F : Type} (gameAssets : String → Except E F)
    (oa : List (AudioID × Audio))
    (oi : List (ImageID × ImageInfo)) (ofn : List (FontID × Font)) (orw : List (RawID × Raw))
    (ha : oa.Perm audioResources) (hi : oi.Perm imageResources)
    (hf : ofn.Perm fontResources) (hr : orw.Perm rawResources) :
    (audioResources.length = 9 ∧ imageResources.length = 38 ∧ fontResources.length = 3 ∧
      rawResources.length = 1) ∧
    (∀ e ∈ audioResources,
      (startupCalls oa oi ofn orw).count (Call.AudioRegistry_Set e.1 e.2) = 1 ∧
      (∀ res, Call.AudioRegistry_Set e.1 res ∈ startupCalls oa oi ofn orw → res = e.2) ∧
      (startupCalls oa oi ofn orw).count (Call.PreloadAudio e.1) = 1) ∧
    (∀ e ∈ imageResources,
      (startupCalls oa oi ofn orw).count (Call.ImageRegistry_Set e.1 e.2) = 1 ∧
      (∀ res, Call.ImageRegistry_Set e.1 res ∈ startupCalls oa oi ofn orw → res = e.2) ∧
      (startupCalls oa oi ofn orw).count (Call.PreloadImage e.1) = 1) ∧
    (∀ e ∈ fontResources,
      (startupCalls oa oi ofn orw).count (Call.FontRegistry_Set e.1 e.2) = 1 ∧
      (∀ res, Call.FontRegistry_Set e.1 res ∈ startupCalls oa oi ofn orw → res = e.2) ∧
      (startupCalls oa oi ofn orw).count (Call.PreloadFont e.1) = 1) ∧
    (∀ e ∈ rawResources,
      (startupCalls oa oi ofn orw).count (Call.RawRegistry_Set e.1 e.2) = 1 ∧
      (∀ res, Call.RawRegistry_Set e.1 res ∈ startupCalls oa oi ofn orw → res = e.2) ∧
      (startupCalls oa oi ofn orw).count (Call.PreloadRaw e.1) = 1) ∧
    (∀ c ∈ startupCalls oa oi ofn orw,
      (∃ e ∈ audioResources, c = Call.AudioRegistry_Set e.1 e.2 ∨ c = Call.PreloadAudio e.1) ∨
      (∃ e ∈ imageResources, c = Call.ImageRegistry_Set e.1 e.2 ∨ c = Call.PreloadImage e.1) ∨
      (∃ e ∈ fontResources, c = Call.FontRegistry_Set e.1 e.2 ∨ c = Call.PreloadFont e.1) ∨
      (∃ e ∈ rawResources, c = Call.RawRegistry_Set e.1 e.2 ∨ c = Call.PreloadRaw e.1)) ∧
    (startup gameAssets oa oi ofn orw).requests.count
        (LoadRequest.audio AudioGatlingGun { Path := "sounds/gatling_gun.wav", Volume := -0.5 })
      = 1 ∧
    (∀ res, LoadRequest.audio AudioGatlingGun res ∈ (startup gameAssets oa oi ofn orw).requests →
      res = { Path := "sounds/gatling_gun.wav", Volume := -0.5 }) := by
  have hmem : ∀ c ∈ startupCalls oa oi ofn orw,
      (∃ e ∈ audioResources, c = Call.AudioRegistry_Set e.1 e.2 ∨ c = Call.PreloadAudio e.1) ∨
      (∃ e ∈ imageResources, c = Call.ImageRegistry_Set e.1 e.2 ∨ c = Call.PreloadImage e.1) ∨
      (∃ e ∈ fontResources, c = Call.FontRegistry_Set e.1 e.2 ∨ c = Call.PreloadFont e.1) ∨
      (∃ e ∈ rawResources, c = Call.RawRegistry_Set e.1 e.2 ∨ c = Call.PreloadRaw e.1) := by
    intro c hc
    exact (mem_startupCalls _ _ _ _ c).1 ((startupCalls_perm ha hi hf hr).mem_iff.1 hc)
  have hgg : (AudioGatlingGun,
      ({ Path := "sounds/gatling_gun.wav", Volume := -0.5 } : Audio)) ∈ audioResources :=
    List.Mem.head _
  refine ⟨⟨rfl, rfl, rfl, rfl⟩, ?_, ?_, ?_, ?_, hmem, ?_, ?_⟩
  · intro e he
    refine ⟨count_startupCalls oa oi ofn orw ha hi hf hr _ ?_, ?_,
      count_startupCalls oa oi ofn orw ha hi hf hr _ ?_⟩
    · exact (mem_startupCalls _ _ _ _ _).2 (Or.inl ⟨e, he, Or.inl rfl⟩)
    · intro res hres
      rcases hmem _ hres with ⟨e1, he1, h | h⟩ | ⟨e1, _, h | h⟩ | ⟨e1, _, h | h⟩ |
        ⟨e1, _, h | h⟩ <;>
        first
          | exact Call.noConfusion h
          | skip
      injection h with h1 h2
      rw [h2]
      exact entry_unique _ audio_keys_nodup e.1 _ _ (by rw [h1]; exact he1) he
    · exact (mem_startupCalls _ _ _ _ _).2 (Or.inl ⟨e, he, Or.inr rfl⟩)
  · intro e he
    refine ⟨count_startupCalls oa oi ofn orw ha hi hf hr _ ?_, ?_,
      count_startupCalls oa oi ofn orw ha hi hf hr _ ?_⟩
    · exact (mem_startupCalls _ _ _ _ _).2 (Or.inr (Or.inl ⟨e, he, Or.inl rfl⟩))
    · intro res hres
      rcases hmem _ hres with ⟨e1, _, h | h⟩ | ⟨e1, he1, h | h⟩ | ⟨e1, _, h | h⟩ |
        ⟨e1, _, h | h⟩ <;>
        first
          | exact Call.noConfusion h
          | skip
      injection h with h1 h2
      rw [h2]
      exact entry_unique _ image_keys_nodup e.1 _ _ (by rw [h1]; exact he1) he
    · exact (mem_startupCalls _ _ _ _ _).2 (Or.inr (Or.inl ⟨e, he, Or.inr rfl⟩))
  · intro e he
    refine ⟨count_startupCalls oa oi ofn orw ha hi hf hr _ ?_, ?_,
      count_startupCalls oa oi ofn orw ha hi hf hr _ ?_⟩
    · exact (mem_startupCalls _ _ _ _ _).2 (Or.inr (Or.inr (Or.inl ⟨e, he, Or.inl rfl⟩)))
    · intro res hres
      rcases hmem _ hres with ⟨e1, _, h | h⟩ | ⟨e1, _, h | h⟩ | ⟨e1, he1, h | h⟩ |
        ⟨e1, _, h | h⟩ <;>
        first
          | exact Call.noConfusion h
          | skip
      injection h with h1 h2
      rw [h2]
      exact entry_unique _ font_keys_nodup e.1 _ _ (by rw [h1]; exact he1) he
    · exact (mem_startupCalls _ _ _ _ _).2 (Or.inr (Or.inr (Or.inl ⟨e, he, Or.inr rfl⟩)))
  · intro e he
    refine ⟨count_startupCalls oa oi ofn orw ha hi hf hr _ ?_, ?_,
      count_startupCalls oa oi ofn orw ha hi hf hr _ ?_⟩
    · exact (mem_startupCalls _ _ _ _ _).2 (Or.inr (Or.inr (Or.inr ⟨e, he, Or.inl rfl⟩)))
    · intro res hres
      rcases hmem _ hres with ⟨e1, _, h | h⟩ | ⟨e1, _, h | h⟩ | ⟨e1, _, h | h⟩ |
        ⟨e1, he1, h | h⟩ <;>
        first
          | exact Call.noConfusion h
          | skip
      injection h with h1 h2
      rw [h2]
      exact entry_unique _ raw_keys_nodup e.1 _ _ (by rw [h1]; exact he1) he
    · exact (mem_startupCalls _ _ _ _ _).2 (Or.inr (Or.inr (Or.inr ⟨e, he, Or.inr rfl⟩)))
  · rw [startup_requests]
    have hp := (((ha.map (fun e => LoadRequest.audio e.1 e.2)).append
      (hi.map (fun e => LoadRequest.image e.1 e.2))).append
      (hf.map (fun e => LoadRequest.font e.1 e.2))).append
      (hr.map (fun e => LoadRequest.raw e.1 e.2))
    rw [hp.count_eq]
    refine List.count_eq_one_of_mem requests_nodup ?_
    simp only [List.mem_append, List.mem_map]
    exact Or.inl (Or.inl (Or.inl ⟨_, hgg, rfl⟩))
  · intro res hres
    rw [startup_requests] at hres
    simp only [List.mem_append, List.mem_map] at hres
    rcases hres with ((⟨e, he, h⟩ | ⟨e, _, h⟩) | ⟨e, _, h⟩) | ⟨e, _, h⟩ <;>
      first
        | exact LoadRequest.noConfusion h
        | skip
    injection h with h1 h2
    rw [← h2]
    exact entry_unique _ audio_keys_nodup AudioGatlingGun _ _
      (by rw [← h1]; exact ha.mem_iff.1 he) hgg

theorem each_entry_set_and_preloaded_once_witness :
    (startupCalls audioResources.reverse imageResources fontResources.reverse
        rawResources).count (Call.PreloadAudio AudioGatlingGun) = 1 ∧
    (startup sampleAssets audioResources.reverse imageResources fontResources.reverse
        rawResources).requests.count
        (LoadRequest.audio AudioGatlingGun { Path := "sounds/gatling_gun.wav", Volume := -0.5 })
      = 1 :=
  have h := each_entry_set_and_preloaded_once sampleAssets audioResources.reverse imageResources
    fontResources.reverse rawResources (List.reverse_perm _) (List.Perm.refl _)
    (List.reverse_perm _) (List.Perm.refl _)
  ⟨(h.2.1 (AudioGatlingGun, { Path := "sounds/gatling_gun.wav", Volume := -0.5 })
    (List.Mem.head _)).2.2, h.2.2.2.2.2.2.1⟩

/-- C3: with Set as insert-or-overwrite, the four registries after the registration loops
are the same for any two iteration orders of the tables; each maps every id of its table to
the descriptor the table gives for it, and holds nothing for any other id. -/
theorem registries_independent_of_order {E F : Type} (gameAssets : String → Except E F)
    (oa : List (AudioID × Audio))
    (oi : List (ImageID × ImageInfo)) (ofn : List (FontID × Font)) (orw : List (RawID × Raw))
    (ha : oa.Perm audioResources) (hi : oi.Perm imageResources)
    (hf : ofn.Perm fontResources) (hr : orw.Perm rawResources)
    (oa2 : List (AudioID × Audio)) (oi2 : List (ImageID × ImageInfo))
    (ofn2 : List (FontID × Font)) (orw2 : List (RawID × Raw))
    (ha2 : oa2.Perm audioResources) (hi2 : oi2.Perm imageResources)
    (hf2 : ofn2.Perm fontResources) (hr2 : orw2.Perm rawResources) :
    ((startup gameAssets oa oi ofn orw).AudioRegistry =
        (startup gameAssets oa2 oi2 ofn2 orw2).AudioRegistry ∧
      (startup gameAssets oa oi ofn orw).ImageRegistry =
        (startup gameAssets oa2 oi2 ofn2 orw2).ImageRegistry ∧
      (startup gameAssets oa oi ofn orw).FontRegistry =
        (startup gameAssets oa2 oi2 ofn2 orw2).FontRegistry ∧
      (startup gameAssets oa oi ofn orw).RawRegistry =
        (startup gameAssets oa2 oi2 ofn2 orw2).RawRegistry) ∧
    ((∀ e ∈ audioResources,
        (startup gameAssets oa oi ofn orw).AudioRegistry.mapping e.1 = some e.2) ∧
      (∀ id, id ∉ audioResources.map Prod.fst →
        (startup gameAssets oa oi ofn orw).AudioRegistry.mapping id = none)) ∧
    ((∀ e ∈ imageResources,
        (startup gameAssets oa oi ofn orw).ImageRegistry.mapping e.1 = some e.2) ∧
      (∀ id, id ∉ imageResources.map Prod.fst →
        (startup gameAssets oa oi ofn orw).ImageRegistry.mapping id = none)) ∧
    ((∀ e ∈ fontResources,
        (startup gameAssets oa oi ofn orw).FontRegistry.mapping e.1 = some e.2) ∧
      (∀ id, id ∉ fontResources.map Prod.fst →
        (startup gameAssets oa oi ofn orw).FontRegistry.mapping id = none)) ∧
    ((∀ e ∈ rawResources,
        (startup gameAssets oa oi ofn orw).RawRegistry.mapping e.1 = some e.2) ∧
      (∀ id, id ∉ rawResources.map Prod.fst →
        (startup gameAssets oa oi ofn orw).RawRegistry.mapping id = none)) := by
  obtain ⟨r1, r2, r3, r4⟩ := startup_registries gameAssets oa oi ofn orw
  obtain ⟨s1, s2, s3, s4⟩ := startup_registries gameAssets oa2 oi2 ofn2 orw2
  rw [r1, r2, r3, r4, s1, s2, s3, s4]
  exact ⟨⟨fold_set_perm_eq _ _ _ audio_keys_nodup ha ha2,
      fold_set_perm_eq _ _ _ image_keys_nodup hi hi2,
      fold_set_perm_eq _ _ _ font_keys_nodup hf hf2,
      fold_set_perm_eq _ _ _ raw_keys_nodup hr hr2⟩,
    fold_set_perm _ _ audio_keys_nodup ha, fold_set_perm _ _ image_keys_nodup hi,
    fold_set_perm _ _ font_keys_nodup hf, fold_set_perm _ _ raw_keys_nodup hr⟩

theorem registries_independent_of_order_witness :
    (startup sampleAssets audioResources.reverse imageResources.reverse fontResources.reverse
        rawResources.reverse).AudioRegistry =
      (startup sampleAssets audioResources imageResources fontResources
        rawResources).AudioRegistry ∧
    (startup sampleAssets audioResources.reverse imageResources.reverse fontResources.reverse
        rawResources.reverse).FontRegistry.mapping FontDescription =
      some { Path := "DejavuSansMono.ttf", Size := 14, LineSpacing := 1.15 } ∧
    (startup sampleAssets audioResources.reverse imageResources.reverse fontResources.reverse
        rawResources.reverse).FontRegistry.mapping 3 = none :=
  have h := registries_independent_of_order sampleAssets audioResources.reverse
    imageResources.reverse fontResources.reverse rawResources.reverse (List.reverse_perm _)
    (List.reverse_perm _) (List.reverse_perm _) (List.reverse_perm _) audioResources
    imageResources fontResources rawResources (List.Perm.refl _) (List.Perm.refl _)
    (List.Perm.refl _) (List.Perm.refl _)
  ⟨h.1.1,
    h.2.2.2.1.1 (FontDescription, { Path := "DejavuSansMono.ttf", Size := 14, LineSpacing := 1.15 })
      (List.Mem.tail _ (List.Mem.head _)),
    h.2.2.2.1.2 3 (by decide)⟩

/-! ## The asset paths -/

theorem registeredPaths_shape :
    ∀ q ∈ registeredPaths, q ≠ "" ∧ q.toList.head? ≠ some '/' ∧ Char.ofNat 92 ∉ q.toList ∧
      "..".toList ∉ q.toList.splitOn '/' := by
  decide

/-- C9: every registered `Path` is non-empty, does not start with `/`, holds no backslash
and has no `..` segment; for every iteration order the paths the loader passes to the
asset-open function are the registered paths, and the names opened in the bundle are those
paths, each behind `assets/`. -/
theorem opened_names_are_registered_paths {E F : Type} (gameAssets : String → Except E F)
    (oa : List (AudioID × Audio))
    (oi : List (ImageID × ImageInfo)) (ofn : List (FontID × Font)) (orw : List (RawID × Raw))
    (ha : oa.Perm audioResources) (hi : oi.Perm imageResources)
    (hf : ofn.Perm fontResources) (hr : orw.Perm rawResources) :
    (∀ q ∈ registeredPaths, q ≠ "" ∧ q.toList.head? ≠ some '/' ∧ Char.ofNat 92 ∉ q.toList ∧
      "..".toList ∉ q.toList.splitOn '/') ∧
    ((startup gameAssets oa oi ofn orw).requests.map LoadRequest.Path).Perm registeredPaths ∧
    (startup gameAssets oa oi ofn orw).effects.opened =
      ((startup gameAssets oa oi ofn orw).requests.map LoadRequest.Path).map
        (fun q => "assets/" ++ q) ∧
    (∀ name ∈ (startup gameAssets oa oi ofn orw).effects.opened,
      ∃ q ∈ registeredPaths, name = "assets/" ++ q) := by
  have hperm : ((startup gameAssets oa oi ofn orw).requests.map LoadRequest.Path).Perm
      registeredPaths := by
    rw [startup_requests]
    simp only [List.map_append, List.map_map, Function.comp_def, LoadRequest.Path]
    exact (((ha.map _).append (hi.map _)).append (hf.map _)).append (hr.map _)
  have hopen : (startup gameAssets oa oi ofn orw).effects.opened =
      ((startup gameAssets oa oi ofn orw).requests.map LoadRequest.Path).map
        (fun q => "assets/" ++ q) := by
    rw [startup_effects, openAll_opened]
    rfl
  refine ⟨registeredPaths_shape, hperm, hopen, ?_⟩
  intro name hname
  rw [hopen] at hname
  obtain ⟨q, hq, rfl⟩ := List.mem_map.1 hname
  exact ⟨q, hperm.mem_iff.1 hq, rfl⟩

theorem opened_names_are_registered_paths_witness :
    (startup sampleAssets audioResources.reverse imageResources.reverse fontResources
        rawResources).effects.opened =
      ((startup sampleAssets audioResources.reverse imageResources.reverse fontResources
        rawResources).requests.map LoadRequest.Path).map (fun q => "assets/" ++ q) ∧
    (∀ name ∈ (startup sampleAssets audioResources.reverse imageResources.reverse fontResources
        rawResources).effects.opened, ∃ q ∈ registeredPaths, name = "assets/" ++ q) :=
  (opened_names_are_registered_paths sampleAssets audioResources.reverse imageResources.reverse
    fontResources rawResources (List.reverse_perm _) (List.reverse_perm _) (List.Perm.refl _)
    (List.Perm.refl _)).2.2

/-! ## Coverage of the declared identifiers -/

/-- C10: for each kind the keys of the registration table are exactly the declared constants
of the kind (38 image ids, 9 audio ids, 3 font ids, 1 raw id), and for every iteration order
the start-up trace holds a Set call and a Preload call for every declared id. -/
theorem every_declared_id_registered (oa : List (AudioID × Audio))
    (oi : List (ImageID × ImageInfo)) (ofn : List (FontID × Font)) (orw : List (RawID × Raw))
    (ha : oa.Perm audioResources) (hi : oi.Perm imageResources)
    (hf : ofn.Perm fontResources) (hr : orw.Perm rawResources) :
    ((∀ id, id ∈ imageResources.map Prod.fst ↔ id ∈ declaredImageIDs) ∧
      (∀ id, id ∈ audioResources.map Prod.fst ↔ id ∈ declaredAudioIDs) ∧
      (∀ id, id ∈ fontResources.map Prod.fst ↔ id ∈ declaredFontIDs) ∧
      (∀ id, id ∈ rawResources.map Prod.fst ↔ id ∈ declaredRawIDs)) ∧
    (declaredImageIDs.length = 38 ∧ declaredAudioIDs.length = 9 ∧ declaredFontIDs.length = 3 ∧
      declaredRawIDs.length = 1) ∧
    (∀ id ∈ declaredImageIDs,
      (∃ res, Call.ImageRegistry_Set id res ∈ startupCalls oa oi ofn orw) ∧
      Call.PreloadImage id ∈ startupCalls oa oi ofn orw) ∧
    (∀ id ∈ declaredAudioIDs,
      (∃ res, Call.AudioRegistry_Set id res ∈ startupCalls oa oi ofn orw) ∧
      Call.PreloadAudio id ∈ startupCalls oa oi ofn orw) ∧
    (∀ id ∈ declaredFontIDs,
      (∃ res, Call.FontRegistry_Set id res ∈ startupCalls oa oi ofn orw) ∧
      Call.PreloadFont id ∈ startupCalls oa oi ofn orw) ∧
    (∀ id ∈ declaredRawIDs,
      (∃ res, Call.RawRegistry_Set id res ∈ startupCalls oa oi ofn orw) ∧
      Call.PreloadRaw id ∈ startupCalls oa oi ofn orw) := by
  have ki : (imageResources.map Prod.fst).Perm declaredImageIDs := by decide
  have ka : (audioResources.map Prod.fst).Perm declaredAudioIDs := by decide
  have kf : (fontResources.map Prod.fst).Perm declaredFontIDs := by decide
  have kr : (rawResources.map Prod.fst).Perm declaredRawIDs := by decide
  refine ⟨⟨fun _ => ki.mem_iff, fun _ => ka.mem_iff, fun _ => kf.mem_iff, fun _ => kr.mem_iff⟩,
    ⟨rfl, rfl, rfl, rfl⟩, ?_, ?_, ?_, ?_⟩
  · intro id hid
    obtain ⟨e, he, rfl⟩ := List.mem_map.1 (ki.mem_iff.2 hid)
    exact ⟨⟨e.2, (mem_startupCalls _ _ _ _ _).2
        (Or.inr (Or.inl ⟨e, hi.mem_iff.2 he, Or.inl rfl⟩))⟩,
      (mem_startupCalls _ _ _ _ _).2 (Or.inr (Or.inl ⟨e, hi.mem_iff.2 he, Or.inr rfl⟩))⟩
  · intro id hid
    obtain ⟨e, he, rfl⟩ := List.mem_map.1 (ka.mem_iff.2 hid)
    exact ⟨⟨e.2, (mem_startupCalls _ _ _ _ _).2 (Or.inl ⟨e, ha.mem_iff.2 he, Or.inl rfl⟩)⟩,
      (mem_startupCalls _ _ _ _ _).2 (Or.inl ⟨e, ha.mem_iff.2 he, Or.inr rfl⟩)⟩
  · intro id hid
    obtain ⟨e, he, rfl⟩ := List.mem_map.1 (kf.mem_iff.2 hid)
    exact ⟨⟨e.2, (mem_startupCalls _ _ _ _ _).2
        (Or.inr (Or.inr (Or.inl ⟨e, hf.mem_iff.2 he, Or.inl rfl⟩)))⟩,
      (mem_startupCalls _ _ _ _ _).2
        (Or.inr (Or.inr (Or.inl ⟨e, hf.mem_iff.2 he, Or.inr rfl⟩)))⟩
  · intro id hid
    obtain ⟨e, he, rfl⟩ := List.mem_map.1 (kr.mem_iff.2 hid)
    exact ⟨⟨e.2, (mem_startupCalls _ _ _ _ _).2
        (Or.inr (Or.inr (Or.inr ⟨e, hr.mem_iff.2 he, Or.inl rfl⟩)))⟩,
      (mem_startupCalls _ _ _ _ _).2
        (Or.inr (Or.inr (Or.inr ⟨e, hr.mem_iff.2 he, Or.inr rfl⟩)))⟩

theorem every_declared_id_registered_witness :
    (∃ res, Call.ImageRegistry_Set ImageMenuBackground res ∈
      startupCalls audioResources imageResources.reverse fontResources rawResources.reverse) ∧
    Call.PreloadImage ImageMenuBackground ∈
      startupCalls audioResources imageResources.reverse fontResources rawResources.reverse :=
  (every_declared_id_registered audioResources imageResources.reverse fontResources
    rawResources.reverse (List.Perm.refl _) (List.reverse_perm _) (List.Perm.refl _)
    (List.reverse_perm _)).2.2.1 ImageMenuBackground (by decide)

end Tanks
